import Mathlib

/-!
Verification development for the transaction-analysis pipeline of the
onyx-agentic-financial-insight repository.  The Python source under
`src/agents/transaction_agent/` is shallowly embedded: each tool function
becomes a Lean function over typed records that mirror the dictionaries the
Python code reads and writes (`Option` fields model possibly-absent keys,
`ℚ` models Python numbers, truncation toward zero models `int(...)`).
Wall-clock timestamps, log strings and LLM prompt texts are not part of the
embedded behaviour and are elided where noted.
-/

namespace Onyx

/-- Truncation toward zero on rationals: the semantics of Python `int(x)`
applied to a float/number. -/
def pyInt (q : ℚ) : ℤ :=
  if q < 0 then ⌈q⌉ else ⌊q⌋

/-- Python truthiness of an optional string value: a missing key (`none`) and
the empty string are falsy, every other string is truthy. -/
def strTruthy : Option String → Bool
  | none => false
  | some s => s ≠ ""

/-- Python `str.lower()` on the ASCII labels this codebase compares, defined
over the character list (core `String.toLower` recurses on byte positions,
which the kernel does not evaluate). -/
def pyLower (s : String) : String := String.mk (s.data.map Char.toLower)

/-! ### Cashflow tools (`subagents/cashflow_agent/tools.py`) -/

/-- The result dictionary of `calculate_runway_days`.  In the
`no_spending` branch the code returns no `daily_burn_rate` key, which is
modelled by `none`. -/
structure RunwayResult where
  status : String
  runway_days : ℤ
  severity : String
  daily_burn_rate : Option ℚ := none
  deriving Repr, DecidableEq

/-- `calculate_runway_days(current_balance, avg_daily_spend)` from
`subagents/cashflow_agent/tools.py` lines 3-28. -/
def calculate_runway_days (current_balance avg_daily_spend : ℚ) : RunwayResult :=
  if avg_daily_spend ≤ 0 then
    { status := "no_spending", runway_days := 999, severity := "info" }
  else
    let runway_days := pyInt (current_balance / avg_daily_spend)
    { status := "success"
      runway_days := runway_days
      severity :=
        if runway_days < 7 then "critical"
        else if runway_days < 30 then "warn"
        else "info"
      daily_burn_rate := some avg_daily_spend }

/-- `forecast_balance(current_balance, avg_daily_spend, days)` from
`subagents/cashflow_agent/tools.py` lines 30-51 (the `round(..., 2)` display
rounding of the forecasted balance is not modelled; the exact value is kept). -/
structure ForecastResult where
  status : String
  days : ℤ
  forecasted_balance : ℚ
  confidence : ℚ
  will_overdraft : Bool
  deriving Repr, DecidableEq

def forecast_balance (current_balance avg_daily_spend : ℚ) (days : ℤ) : ForecastResult :=
  let forecasted_balance := current_balance - avg_daily_spend * days
  { status := "success"
    days := days
    forecasted_balance := forecasted_balance
    confidence := if days ≤ 7 then 0.9 else if days ≤ 30 then 0.7 else 0.5
    will_overdraft := forecasted_balance < 0 }

/-! ### Raw module-result dictionaries

Each analysis agent stores a dictionary in session state; downstream tools
read it with `.get(key, default)`.  A possibly-absent key is an `Option`
field (`none` = key missing).  `hasOtherKeys` records whether the dictionary
carries additional keys not read by any embedded consumer (for example
`raw_response`); its only observable effect is on Python truthiness of the
whole dictionary. -/

/-- Response dict written by
`FraudAgent._run_async_impl` under the `a2a_verification` key. -/
inductive A2AVerificationTag where
  | verified (confidence original_score adjusted_score : ℚ)
  | notVerified (confidence : ℚ)
  deriving Repr, DecidableEq

/-- Response of `CashflowAgentMessageHandler.handle_scenario_planning`
(`a2a/message_handlers.py` lines 277-309); the `recommendation` message text
is elided. -/
structure ScenarioResponse where
  scenario_type : String
  current_runway : ℤ
  new_runway : ℤ
  runway_extension : ℤ
  monthly_savings : ℚ
  risk_assessment : String
  deriving Repr, DecidableEq

/-- Raw categorization result dictionary (`categorization_result`). -/
structure CatResult where
  error : Option String := none
  category : Option String := none
  subcategory : Option String := none
  confidence : Option ℚ := none
  reason : Option String := none
  hasOtherKeys : Bool := false
  deriving Repr, DecidableEq

/-- Python truthiness of the dictionary: nonempty. -/
def CatResult.truthy (r : CatResult) : Bool :=
  r.error.isSome || r.category.isSome || r.subcategory.isSome ||
    r.confidence.isSome || r.reason.isSome || r.hasOtherKeys

/-- Raw fraud result dictionary (`fraud_result`). -/
structure FraudResult where
  error : Option String := none
  fraud_score : Option ℚ := none
  alerts : Option (List String) := none
  reason : Option String := none
  checks : Option (List String) := none
  a2a_verification : Option A2AVerificationTag := none
  hasOtherKeys : Bool := false
  deriving Repr, DecidableEq

def FraudResult.truthy (r : FraudResult) : Bool :=
  r.error.isSome || r.fraud_score.isSome || r.alerts.isSome || r.reason.isSome ||
    r.checks.isSome || r.a2a_verification.isSome || r.hasOtherKeys

/-- Raw budget result dictionary (`budget_result`). -/
structure BudgetResult where
  error : Option String := none
  over_budget : Option Bool := none
  budget_percentage : Option ℚ := none
  category_trend : Option String := none
  tips : Option (List String) := none
  alert : Option String := none
  a2a_scenarios : Option ScenarioResponse := none
  hasOtherKeys : Bool := false
  deriving Repr, DecidableEq

def BudgetResult.truthy (r : BudgetResult) : Bool :=
  r.error.isSome || r.over_budget.isSome || r.budget_percentage.isSome ||
    r.category_trend.isSome || r.tips.isSome || r.alert.isSome ||
    r.a2a_scenarios.isSome || r.hasOtherKeys

/-- Raw cashflow result dictionary (`cashflow_result`).  The `forecast` JSON
object is modelled as an association list. -/
structure CashflowResult where
  error : Option String := none
  runway_days : Option ℚ := none
  low_balance_alert : Option Bool := none
  severity : Option String := none
  forecast : Option (List (String × ℚ)) := none
  recommendations : Option (List String) := none
  hasOtherKeys : Bool := false
  deriving Repr, DecidableEq

def CashflowResult.truthy (r : CashflowResult) : Bool :=
  r.error.isSome || r.runway_days.isSome || r.low_balance_alert.isSome ||
    r.severity.isSome || r.forecast.isSome || r.recommendations.isSome ||
    r.hasOtherKeys

/-! ### Reducer tools (`subagents/reducer_agent/tools.py`) -/

/-- Canonical categorization shape produced by `normalize_categorization`. -/
structure CatNorm where
  status : String
  category : String
  subcategory : String
  confidence : ℚ
  reason : String
  deriving Repr, DecidableEq

/-- `normalize_categorization(result)` (reducer tools lines 12-29). -/
def normalize_categorization (result : CatResult) : CatNorm :=
  if !result.truthy || strTruthy result.error then
    { status := "failed", category := "unknown", subcategory := "unknown"
      confidence := 0, reason := result.error.getD "Categorization agent failed" }
  else
    { status := "success"
      category := result.category.getD "unknown"
      subcategory := result.subcategory.getD "unknown"
      confidence := result.confidence.getD 0
      reason := result.reason.getD "Categorization completed" }

/-- Canonical fraud shape produced by `normalize_fraud`. -/
structure FraudNorm where
  status : String
  fraud_score : ℚ
  alerts : List String
  reason : String
  checks_performed : List String
  deriving Repr, DecidableEq

/-- `normalize_fraud(result)` (reducer tools lines 32-49). -/
def normalize_fraud (result : FraudResult) : FraudNorm :=
  if !result.truthy || strTruthy result.error then
    { status := "failed", fraud_score := 0, alerts := []
      reason := result.error.getD "Fraud agent failed", checks_performed := [] }
  else
    { status := "success"
      fraud_score := result.fraud_score.getD 0
      alerts := result.alerts.getD []
      reason := result.reason.getD "Fraud analysis completed"
      checks_performed := result.checks.getD [] }

/-- Canonical budget shape produced by `normalize_budget`. -/
structure BudgetNorm where
  status : String
  over_budget : Bool
  budget_percentage : ℚ
  category_trend : String
  tips : List String
  alert : String
  deriving Repr, DecidableEq

/-- `normalize_budget(result)` (reducer tools lines 52-71). -/
def normalize_budget (result : BudgetResult) : BudgetNorm :=
  if !result.truthy || strTruthy result.error then
    { status := "failed", over_budget := false, budget_percentage := 0
      category_trend := "unknown", tips := []
      alert := result.error.getD "Budget agent failed" }
  else
    { status := "success"
      over_budget := result.over_budget.getD false
      budget_percentage := result.budget_percentage.getD 0
      category_trend := result.category_trend.getD "unknown"
      tips := result.tips.getD []
      alert := result.alert.getD "Budget analysis completed" }

/-- Canonical cashflow shape produced by `normalize_cashflow`. -/
structure CashflowNorm where
  status : String
  runway_days : ℤ
  low_balance_alert : Bool
  severity : String
  forecast : List (String × ℚ)
  recommendations : List String
  deriving Repr, DecidableEq

/-- `normalize_cashflow(result)` (reducer tools lines 74-93). -/
def normalize_cashflow (result : CashflowResult) : CashflowNorm :=
  if !result.truthy || strTruthy result.error then
    { status := "failed", runway_days := 0, low_balance_alert := true
      severity := "critical", forecast := []
      recommendations := [result.error.getD "Cashflow agent failed"] }
  else
    { status := "success"
      runway_days := pyInt (result.runway_days.getD 0)
      low_balance_alert := result.low_balance_alert.getD false
      severity := result.severity.getD "info"
      forecast := result.forecast.getD []
      recommendations := result.recommendations.getD [] }

/-- `calculate_overall_risk(fraud, budget, cashflow)` (reducer tools lines
96-124): conditional contributions are collected into `risk_factors` and
averaged. -/
def calculate_overall_risk (fraud : FraudResult) (budget : BudgetResult)
    (cashflow : CashflowResult) : ℚ :=
  let risk_factors : List ℚ :=
    (if fraud.truthy && !strTruthy fraud.error then
      [fraud.fraud_score.getD 0]
     else []) ++
    (if budget.truthy && !strTruthy budget.error then
      [if budget.over_budget.getD false then
         min (budget.budget_percentage.getD 0 / 100) 1
       else 0]
     else []) ++
    (if cashflow.truthy && !strTruthy cashflow.error then
      [(fun runway_days =>
          if runway_days ≤ 7 then (1 : ℚ)
          else if runway_days ≤ 30 then 0.7
          else if runway_days ≤ 90 then 0.3
          else 0) (pyInt (cashflow.runway_days.getD 0))]
     else [])
  if risk_factors = [] then 0 else risk_factors.sum / risk_factors.length

/-- `identify_primary_concerns(fraud, budget, cashflow)` (reducer tools lines
127-154). -/
def identify_primary_concerns (fraud : FraudResult) (budget : BudgetResult)
    (cashflow : CashflowResult) : List String :=
  (if fraud.truthy && !strTruthy fraud.error then
    (if fraud.fraud_score.getD 0 > 0.7 then ["High fraud risk detected"]
     else if fraud.fraud_score.getD 0 > 0.4 then ["Moderate fraud risk"]
     else [])
   else []) ++
  (if budget.truthy && !strTruthy budget.error then
    (if budget.over_budget.getD false then ["Over budget spending"] else []) ++
    (if budget.category_trend = some "increasing" then ["Increasing spending trend"] else [])
   else []) ++
  (if cashflow.truthy && !strTruthy cashflow.error then
    (if pyInt (cashflow.runway_days.getD 0) ≤ 7 then ["Critical cashflow situation"]
     else if pyInt (cashflow.runway_days.getD 0) ≤ 30 then ["Low cashflow runway"]
     else [])
   else [])

/-- `prioritize_recommendations(fraud, budget, cashflow)` (reducer tools lines
157-178). -/
def prioritize_recommendations (fraud : FraudResult) (budget : BudgetResult)
    (cashflow : CashflowResult) : List String :=
  (if cashflow.truthy && !strTruthy cashflow.error then
    (if pyInt (cashflow.runway_days.getD 0) ≤ 7 then ["URGENT: Address cashflow crisis"]
     else [])
   else []) ++
  (if fraud.truthy && !strTruthy fraud.error then
    (if fraud.fraud_score.getD 0 > 0.7 then ["HIGH: Investigate fraud risk"] else [])
   else []) ++
  (if budget.truthy && !strTruthy budget.error then
    (if budget.over_budget.getD false then ["MEDIUM: Reduce spending to stay within budget"]
     else [])
   else [])

/-- The `transaction_analysis` block of the merged results. -/
structure TransactionAnalysis where
  categorization : CatNorm
  fraud_detection : FraudNorm
  budget_analysis : BudgetNorm
  cashflow_forecast : CashflowNorm
  deriving Repr, DecidableEq

/-- The `summary` block of the merged results. -/
structure AnalysisSummary where
  overall_risk_score : ℚ
  primary_concerns : List String
  recommendations_priority : List String
  deriving Repr, DecidableEq

/-- Result of `merge_results` (the reducer agent later adds a `metadata`
block holding only wall-clock timestamps, which are elided). -/
structure MergedResults where
  transaction_analysis : TransactionAnalysis
  summary : AnalysisSummary
  deriving Repr, DecidableEq

/-- `merge_results(categorization, fraud, budget, cashflow)` (reducer tools
lines 181-198). -/
def merge_results (categorization : CatResult) (fraud : FraudResult)
    (budget : BudgetResult) (cashflow : CashflowResult) : MergedResults :=
  { transaction_analysis :=
      { categorization := normalize_categorization categorization
        fraud_detection := normalize_fraud fraud
        budget_analysis := normalize_budget budget
        cashflow_forecast := normalize_cashflow cashflow }
    summary :=
      { overall_risk_score := calculate_overall_risk fraud budget cashflow
        primary_concerns := identify_primary_concerns fraud budget cashflow
        recommendations_priority := prioritize_recommendations fraud budget cashflow } }

/-- C3: every input dictionary is normalized to the canonical shape with a
status of either `success` or `failed`; an absent (empty) or errored input
yields the documented neutral defaults — categorization: category `unknown`
with confidence 0; cashflow: `runway_days` 0 with severity `critical`. -/
theorem c3_normalize_neutral_defaults (c : CatResult) (cf : CashflowResult) :
    ((normalize_categorization c).status = "success" ∨
      (normalize_categorization c).status = "failed") ∧
    ((normalize_cashflow cf).status = "success" ∨
      (normalize_cashflow cf).status = "failed") ∧
    (c = {} ∨ strTruthy c.error = true →
      normalize_categorization c =
        { status := "failed", category := "unknown", subcategory := "unknown"
          confidence := 0, reason := c.error.getD "Categorization agent failed" }) ∧
    (cf = {} ∨ strTruthy cf.error = true →
      normalize_cashflow cf =
        { status := "failed", runway_days := 0, low_balance_alert := true
          severity := "critical", forecast := []
          recommendations := [cf.error.getD "Cashflow agent failed"] }) := by
  refine ⟨?_, ?_, ?_, ?_⟩
  · by_cases h : (!c.truthy || strTruthy c.error : Bool) = true
    · right; simp [normalize_categorization, h]
    · left; simp [normalize_categorization, h]
  · by_cases h : (!cf.truthy || strTruthy cf.error : Bool) = true
    · right; simp [normalize_cashflow, h]
    · left; simp [normalize_cashflow, h]
  · rintro (rfl | h)
    · rfl
    · simp [normalize_categorization, h]
  · rintro (rfl | h)
    · rfl
    · simp [normalize_cashflow, h]

/-- Concrete instantiation of `c3_normalize_neutral_defaults`: the empty
categorization dictionary and an errored cashflow dictionary both normalize to
the neutral defaults. -/
theorem c3_normalize_neutral_defaults_witness :
    normalize_categorization {} =
      { status := "failed", category := "unknown", subcategory := "unknown"
        confidence := 0, reason := "Categorization agent failed" } ∧
    normalize_cashflow { error := some "timeout" } =
      { status := "failed", runway_days := 0, low_balance_alert := true
        severity := "critical", forecast := []
        recommendations := ["timeout"] } := by
  constructor
  · exact (c3_normalize_neutral_defaults {} {}).2.2.1 (Or.inl rfl)
  · exact (c3_normalize_neutral_defaults {} { error := some "timeout" }).2.2.2
      (Or.inr (by decide))

/-- The fraud-module contribution to the aggregate risk score as the claim
words it: the fraud score itself, counted only when the module result is
present (nonempty) and not errored.  Spec-side definition for the refinement
theorem `c4_overall_risk_is_mean`. -/
def claimedFraudContribution (fraud : FraudResult) : Option ℚ :=
  if fraud.truthy && !strTruthy fraud.error then some (fraud.fraud_score.getD 0) else none

/-- The budget-module contribution as the claim words it: percentage / 100
capped at 1 when over budget, 0 otherwise. -/
def claimedBudgetContribution (budget : BudgetResult) : Option ℚ :=
  if budget.truthy && !strTruthy budget.error then
    some (if budget.over_budget.getD false then
            min (budget.budget_percentage.getD 0 / 100) 1
          else 0)
  else none

/-- The cashflow-module contribution as the claim words it: runway bucketed
at 1.0 for ≤ 7 days, 0.7 for ≤ 30, 0.3 for ≤ 90, and 0.0 otherwise. -/
def claimedCashflowContribution (cashflow : CashflowResult) : Option ℚ :=
  if cashflow.truthy && !strTruthy cashflow.error then
    some (if pyInt (cashflow.runway_days.getD 0) ≤ 7 then 1
          else if pyInt (cashflow.runway_days.getD 0) ≤ 30 then 0.7
          else if pyInt (cashflow.runway_days.getD 0) ≤ 90 then 0.3
          else 0)
  else none

/-- The aggregate risk score as the claim words it: the arithmetic mean of
exactly the available contributions, and 0 when no module contributed. -/
def claimedOverallRisk (fraud : FraudResult) (budget : BudgetResult)
    (cashflow : CashflowResult) : ℚ :=
  let contributions :=
    [claimedFraudContribution fraud, claimedBudgetContribution budget,
     claimedCashflowContribution cashflow].reduceOption
  if contributions = [] then 0 else contributions.sum / contributions.length

/-- C4: for every combination of fraud, budget and cashflow results, the
aggregate risk score computed by `calculate_overall_risk` equals the
arithmetic mean of exactly the contributions of the present, non-errored
modules (fraud score directly; budget percentage / 100 capped at 1 when over
budget, else 0; cashflow runway bucketed ≤7→1.0, ≤30→0.7, ≤90→0.3, else 0);
it is 0 when no module contributed. -/
theorem c4_overall_risk_is_mean (f : FraudResult) (b : BudgetResult)
    (c : CashflowResult) :
    calculate_overall_risk f b c = claimedOverallRisk f b c := by
  unfold calculate_overall_risk claimedOverallRisk claimedFraudContribution
    claimedBudgetContribution claimedCashflowContribution
  cases hf : (f.truthy && !strTruthy f.error) <;>
    cases hb : (b.truthy && !strTruthy b.error) <;>
      cases hc : (c.truthy && !strTruthy c.error) <;>
        simp [List.reduceOption]

/-! ### Consensus tools (`subagents/consensus_agent/tools.py`) -/

/-- One value in a conflict's `signals` block (either a score or a flag). -/
inductive SignalValue where
  | num (q : ℚ)
  | flag (b : Bool)
  deriving Repr, DecidableEq

/-- A conflict record appended by `detect_conflicts`. -/
structure Conflict where
  type : String
  description : String
  signals : List (String × SignalValue)
  involved_agents : List String
  severity : String
  deriving Repr, DecidableEq

/-- `detect_conflicts(categorization, fraud, budget, cashflow)`
(consensus tools lines 12-59). -/
def detect_conflicts (categorization : CatResult) (fraud : FraudResult)
    (budget : BudgetResult) (cashflow : CashflowResult) : List Conflict :=
  let fraud_score := fraud.fraud_score.getD 0
  let categorization_confidence := categorization.confidence.getD 0
  (if fraud_score > 0.7 ∧ categorization_confidence < 0.5 then
    [{ type := "fraud_vs_categorization"
       description := "High fraud score conflicts with low categorization confidence"
       signals := [("fraud_score", .num fraud_score),
                   ("categorization_confidence", .num categorization_confidence)]
       involved_agents := ["fraud_agent", "categorization_agent"]
       severity := "high" }]
   else if fraud_score < 0.3 ∧ categorization_confidence > 0.8 then
    [{ type := "fraud_vs_categorization"
       description := "Low fraud score conflicts with high categorization confidence"
       signals := [("fraud_score", .num fraud_score),
                   ("categorization_confidence", .num categorization_confidence)]
       involved_agents := ["fraud_agent", "categorization_agent"]
       severity := "medium" }]
   else []) ++
  (let budget_over := budget.over_budget.getD false
   let cashflow_runway := cashflow.runway_days.getD 0
   if budget_over ∧ cashflow_runway > 90 then
    [{ type := "budget_vs_cashflow"
       description := "Over budget but healthy cashflow runway"
       signals := [("over_budget", .flag budget_over),
                   ("runway_days", .num cashflow_runway)]
       involved_agents := ["budget_agent", "cashflow_agent"]
       severity := "medium" }]
   else [])

/-- The `response` sub-dictionary of one collected agent response. -/
structure AgentResponseBody where
  confidence : Option ℚ := none
  recommendation : Option String := none
  deriving Repr, DecidableEq

/-- One entry of the `responses` list passed to
`build_consensus_from_responses`. -/
structure AgentResponse where
  agent : String
  response : AgentResponseBody
  deriving Repr, DecidableEq

/-- Result of `build_consensus_from_responses` (the `reasoning` message text
is elided; `preferred_agent` is `none` when the code writes no such key). -/
structure ConsensusResult where
  resolution : String
  confidence : ℚ
  preferred_agent : Option String := none
  deriving Repr, DecidableEq

/-- `build_consensus_from_responses(responses, conflict)` (consensus tools
lines 62-111).  The `conflict` parameter is accepted and ignored, exactly as
in the source. -/
def build_consensus_from_responses (responses : List AgentResponse)
    (_conflict : Conflict) : ConsensusResult :=
  match responses with
  | [] => { resolution := "insufficient_responses", confidence := 0.5 }
  | [_] => { resolution := "insufficient_responses", confidence := 0.5 }
  | r1 :: r2 :: _ =>
    let confidence1 := r1.response.confidence.getD 0.5
    let confidence2 := r2.response.confidence.getD 0.5
    if confidence1 > confidence2 + 0.2 then
      { resolution := "agent_1_preferred", preferred_agent := some r1.agent
        confidence := confidence1 }
    else if confidence2 > confidence1 + 0.2 then
      { resolution := "agent_2_preferred", preferred_agent := some r2.agent
        confidence := confidence2 }
    else
      let rec1 := r1.response.recommendation.getD "unknown"
      let rec2 := r2.response.recommendation.getD "unknown"
      if rec1 = rec2 then
        { resolution := "consensus_agreement"
          confidence := (confidence1 + confidence2) / 2 }
      else
        { resolution := "mixed_signals", confidence := 0.6 }

/-- C1 counterexample.  The claim names the conflict type
`risk_vs_categorization`; the code's type string is
`fraud_vs_categorization` (so no conflict of the claimed type is ever
returned), and — reading the claim's type name as the code's name for the
same conflict — at fraud score 0.2 and categorization confidence 0.9 a
conflict of that type IS returned (severity `medium`), contradicting the
claim that none fires there; hence fraud > 0.7 ∧ confidence < 0.5 is not the
only condition under which this conflict type is reported. -/
theorem c1_conflict_trigger_counterexample :
    detect_conflicts { confidence := some 0.3 } { fraud_score := some 0.8 } {} {} =
      [{ type := "fraud_vs_categorization"
         description := "High fraud score conflicts with low categorization confidence"
         signals := [("fraud_score", .num 0.8), ("categorization_confidence", .num 0.3)]
         involved_agents := ["fraud_agent", "categorization_agent"]
         severity := "high" }] ∧
    detect_conflicts { confidence := some 0.9 } { fraud_score := some 0.2 } {} {} =
      [{ type := "fraud_vs_categorization"
         description := "Low fraud score conflicts with high categorization confidence"
         signals := [("fraud_score", .num 0.2), ("categorization_confidence", .num 0.9)]
         involved_agents := ["fraud_agent", "categorization_agent"]
         severity := "medium" }] ∧
    "fraud_vs_categorization" ≠ "risk_vs_categorization" := by
  refine ⟨?_, ?_, by decide⟩ <;> norm_num [detect_conflicts]

/-- C1 (amended): the conflict type is named `fraud_vs_categorization` in the
code.  A high-severity conflict of this type is reported exactly when the
fraud score exceeds 0.7 and the categorization confidence is below 0.5 (in
particular at scores 0.8/0.3); in addition a medium-severity conflict of the
same type is reported exactly when the fraud score is below 0.3 and the
categorization confidence exceeds 0.8 (in particular at scores 0.2/0.9, where
the claim expected no conflict). -/
theorem c1_conflict_trigger_amended (cat : CatResult) (fraud : FraudResult)
    (budget : BudgetResult) (cashflow : CashflowResult) :
    ((∃ k ∈ detect_conflicts cat fraud budget cashflow,
        k.type = "fraud_vs_categorization" ∧ k.severity = "high") ↔
      fraud.fraud_score.getD 0 > 0.7 ∧ cat.confidence.getD 0 < 0.5) ∧
    ((∃ k ∈ detect_conflicts cat fraud budget cashflow,
        k.type = "fraud_vs_categorization" ∧ k.severity = "medium") ↔
      fraud.fraud_score.getD 0 < 0.3 ∧ cat.confidence.getD 0 > 0.8) := by
  by_cases hA : fraud.fraud_score.getD 0 > 0.7 ∧ cat.confidence.getD 0 < 0.5
  · have hB : ¬ (fraud.fraud_score.getD 0 < 0.3 ∧ cat.confidence.getD 0 > 0.8) := by
      rintro ⟨h, -⟩
      linarith [hA.1]
    by_cases hC : budget.over_budget.getD false = true ∧ cashflow.runway_days.getD 0 > 90 <;>
      simp [detect_conflicts, hA, hB, hC]
  · by_cases hB : fraud.fraud_score.getD 0 < 0.3 ∧ cat.confidence.getD 0 > 0.8 <;>
      by_cases hC : budget.over_budget.getD false = true ∧ cashflow.runway_days.getD 0 > 90 <;>
        simp [detect_conflicts, hA, hB, hC]

/-- Concrete instantiation of `c1_conflict_trigger_amended` at the two signal
pairs named by the claim. -/
theorem c1_conflict_trigger_amended_witness :
    ((∃ k ∈ detect_conflicts { confidence := some 0.3 } { fraud_score := some 0.8 } {} {},
        k.type = "fraud_vs_categorization" ∧ k.severity = "high") ↔
      ((0.8 : ℚ) > 0.7 ∧ (0.3 : ℚ) < 0.5)) ∧
    ((∃ k ∈ detect_conflicts { confidence := some 0.9 } { fraud_score := some 0.2 } {} {},
        k.type = "fraud_vs_categorization" ∧ k.severity = "medium") ↔
      ((0.2 : ℚ) < 0.3 ∧ (0.9 : ℚ) > 0.8)) :=
  ⟨(c1_conflict_trigger_amended { confidence := some 0.3 } { fraud_score := some 0.8 } {} {}).1,
   (c1_conflict_trigger_amended { confidence := some 0.9 } { fraud_score := some 0.2 } {} {}).2⟩

/-- C5 counterexample: with two responses of equal confidence 0.9 and
differing recommendations, the resolution is `mixed_signals` with confidence
exactly 0.6 — a constant that is not blended from the two responses (it does
not even lie between their reported confidences, both 0.9). -/
theorem c5_mixed_signals_counterexample :
    build_consensus_from_responses
        [{ agent := "fraud_agent"
           response := { confidence := some 0.9, recommendation := some "investigate_further" } },
         { agent := "categorization_agent"
           response := { confidence := some 0.9, recommendation := some "approve_transaction" } }]
        { type := "fraud_vs_categorization", description := "", signals := []
          involved_agents := [], severity := "high" } =
      { resolution := "mixed_signals", confidence := 0.6 } ∧
    ¬ (min (0.9 : ℚ) 0.9 ≤ 0.6 ∧ (0.6 : ℚ) ≤ max 0.9 0.9) := by
  constructor
  · norm_num [build_consensus_from_responses]
    decide
  · rintro ⟨h, -⟩
    norm_num at h

/-- C5 (amended): with fewer than two responses the resolution is
`insufficient_responses` with confidence 0.5; with at least two responses,
only the first two are consulted: a module whose self-reported confidence
exceeds the other's by more than 0.2 is preferred and its confidence is used;
otherwise equal recommendations give `consensus_agreement` with the mean of
the two confidences, and differing recommendations give `mixed_signals` with
the fixed confidence 0.6 (not a value blended from the responses). -/
theorem c5_consensus_amended (conflict : Conflict) :
    (∀ responses : List AgentResponse, responses.length < 2 →
      build_consensus_from_responses responses conflict =
        { resolution := "insufficient_responses", confidence := 0.5 }) ∧
    (∀ (r1 r2 : AgentResponse) (rest : List AgentResponse),
      (r1.response.confidence.getD 0.5 > r2.response.confidence.getD 0.5 + 0.2 →
        build_consensus_from_responses (r1 :: r2 :: rest) conflict =
          { resolution := "agent_1_preferred", preferred_agent := some r1.agent
            confidence := r1.response.confidence.getD 0.5 }) ∧
      (r2.response.confidence.getD 0.5 > r1.response.confidence.getD 0.5 + 0.2 →
        build_consensus_from_responses (r1 :: r2 :: rest) conflict =
          { resolution := "agent_2_preferred", preferred_agent := some r2.agent
            confidence := r2.response.confidence.getD 0.5 }) ∧
      (¬ r1.response.confidence.getD 0.5 > r2.response.confidence.getD 0.5 + 0.2 →
        ¬ r2.response.confidence.getD 0.5 > r1.response.confidence.getD 0.5 + 0.2 →
        r1.response.recommendation.getD "unknown" = r2.response.recommendation.getD "unknown" →
        build_consensus_from_responses (r1 :: r2 :: rest) conflict =
          { resolution := "consensus_agreement"
            confidence := (r1.response.confidence.getD 0.5 +
              r2.response.confidence.getD 0.5) / 2 }) ∧
      (¬ r1.response.confidence.getD 0.5 > r2.response.confidence.getD 0.5 + 0.2 →
        ¬ r2.response.confidence.getD 0.5 > r1.response.confidence.getD 0.5 + 0.2 →
        r1.response.recommendation.getD "unknown" ≠ r2.response.recommendation.getD "unknown" →
        build_consensus_from_responses (r1 :: r2 :: rest) conflict =
          { resolution := "mixed_signals", confidence := 0.6 })) := by
  constructor
  · intro responses h
    match responses, h with
    | [], _ => rfl
    | [_], _ => rfl
  · intro r1 r2 rest
    refine ⟨fun h1 => ?_, fun h2 => ?_, fun h1 h2 heq => ?_, fun h1 h2 hne => ?_⟩
    · simp [build_consensus_from_responses, h1]
    · have h1 : ¬ r1.response.confidence.getD 0.5 > r2.response.confidence.getD 0.5 + 0.2 := by
        intro h
        linarith
      simp [build_consensus_from_responses, h1, h2]
    · simp [build_consensus_from_responses, h1, h2, heq]
    · simp [build_consensus_from_responses, h1, h2, hne]

/-- Concrete instantiation of `c5_consensus_amended`: an empty response list
and a pair of responses with confidences 0.9 / 0.5 (module 1 preferred). -/
theorem c5_consensus_amended_witness :
    build_consensus_from_responses []
        { type := "budget_vs_cashflow", description := "", signals := []
          involved_agents := [], severity := "medium" } =
      { resolution := "insufficient_responses", confidence := 0.5 } ∧
    build_consensus_from_responses
        [{ agent := "budget_agent", response := { confidence := some 0.9 } },
         { agent := "cashflow_agent", response := { confidence := some 0.5 } }]
        { type := "budget_vs_cashflow", description := "", signals := []
          involved_agents := [], severity := "medium" } =
      { resolution := "agent_1_preferred", preferred_agent := some "budget_agent"
        confidence := 0.9 } := by
  constructor
  · exact (c5_consensus_amended _).1 [] (by decide)
  · exact ((c5_consensus_amended
      { type := "budget_vs_cashflow", description := "", signals := []
        involved_agents := [], severity := "medium" }).2
      { agent := "budget_agent", response := { confidence := some 0.9 } }
      { agent := "cashflow_agent", response := { confidence := some 0.5 } } []).1
      (by norm_num)

/-! ### Peer message bus (`a2a/a2a_client.py`) -/

/-- Outcome of invoking a registered message handler: either a response or a
raised exception (carrying its message). -/
inductive HandlerOutcome (ρ : Type) where
  | respond (r : ρ)
  | raise (e : String)

/-- One entry of `message_history` (the generated `message_id` and the
wall-clock timestamp are elided). -/
structure MessageRecord (μ ρ : Type) where
  from_agent : String
  to_agent : String
  message : μ
  status : String
  response : Option ρ := none
  error : Option String := none

/-- The `A2AClient` state: registered agents, per-agent message handlers and
the append-only message history.  Message and response payloads are type
parameters because `send_message` never inspects them. -/
structure A2AClient (μ ρ : Type) where
  registered_agents : List String
  message_handlers : List (String × (μ → HandlerOutcome ρ))
  message_history : List (MessageRecord μ ρ)

/-- Result of one `send_message` call: the returned value (`none` is the
error outcome the code signals by returning `None`), whether any handler was
invoked, and the updated client state. -/
structure SendOutcome (μ ρ : Type) where
  response : Option ρ
  handler_invoked : Bool
  client : A2AClient μ ρ

/-- `A2AClient.send_message(from_agent, to_agent, message)`
(`a2a/a2a_client.py` lines 32-67): an unregistered target is rejected before
any history append or handler dispatch; otherwise the message record is
appended and a registered handler (if any) produces the response, with a
raising handler converted to the `None` return. -/
def A2AClient.send_message (client : A2AClient μ ρ) (from_agent to_agent : String)
    (message : μ) : SendOutcome μ ρ :=
  if to_agent ∉ client.registered_agents then
    { response := none, handler_invoked := false, client := client }
  else
    let record : MessageRecord μ ρ :=
      { from_agent := from_agent, to_agent := to_agent, message := message
        status := "sent" }
    match client.message_handlers.lookup to_agent with
    | some handler =>
      match handler message with
      | .respond r =>
        { response := some r, handler_invoked := true
          client := { client with message_history := client.message_history ++
            [{ record with response := some r, status := "responded" }] } }
      | .raise e =>
        { response := none, handler_invoked := true
          client := { client with message_history := client.message_history ++
            [{ record with error := some e, status := "error" }] } }
    | none =>
      { response := none, handler_invoked := false
        client := { client with message_history := client.message_history ++ [record] } }

/-- C8: for every sender, message and target module name, if the target is
not registered with the peer message bus, `send_message` returns the error
outcome (`None`) without blocking, no handler is invoked, and the client
state (including the message history) is unchanged. -/
theorem c8_unregistered_target_errors {μ ρ : Type} (client : A2AClient μ ρ)
    (from_agent to_agent : String) (message : μ)
    (h : to_agent ∉ client.registered_agents) :
    client.send_message from_agent to_agent message =
      { response := none, handler_invoked := false, client := client } := by
  simp [A2AClient.send_message, h]

/-- Concrete instantiation of `c8_unregistered_target_errors`: sending to the
unregistered `budget_agent` returns the error outcome and leaves the client
untouched. -/
theorem c8_unregistered_target_errors_witness :
    A2AClient.send_message (μ := String) (ρ := String)
        { registered_agents := ["categorization_agent"], message_handlers := []
          message_history := [] }
        "fraud_agent" "budget_agent" "merchant_verification" =
      { response := none, handler_invoked := false
        client := { registered_agents := ["categorization_agent"]
                    message_handlers := [], message_history := [] } } :=
  c8_unregistered_target_errors _ _ _ _ (by decide)

/-! ### Merchant verification (fraud agent ↔ categorization agent) -/

/-- An entry of `CategorizationAgentMessageHandler.merchant_database`. -/
structure MerchantInfo where
  category : String
  subcategory : String
  confidence : ℚ
  deriving Repr, DecidableEq

/-- The known-merchant database (`a2a/message_handlers.py` lines 86-91). -/
def merchant_database : List (String × MerchantInfo) :=
  [("starbucks", { category := "food", subcategory := "coffee_tea", confidence := 0.95 }),
   ("mcdonalds", { category := "food", subcategory := "fast_food", confidence := 0.98 }),
   ("amazon", { category := "shopping", subcategory := "online", confidence := 0.99 }),
   ("shell", { category := "transportation", subcategory := "fuel", confidence := 0.97 })]

/-- A `merchant_verification` request message. -/
structure MerchantVerificationMsg where
  merchant : Option String := none
  amount : ℚ := 0
  context : Option String := none
  deriving Repr, DecidableEq

/-- Response of `handle_merchant_verification` (the `reasoning` text is
elided; `category`/`subcategory` are `none` when the code writes no such
keys). -/
structure VerificationResponse where
  merchant_verified : Bool
  confidence : ℚ
  verification_status : String
  category : Option String := none
  subcategory : Option String := none
  deriving Repr, DecidableEq

/-- `CategorizationAgentMessageHandler.handle_merchant_verification(message)`
(`a2a/message_handlers.py` lines 93-137). -/
def handle_merchant_verification (message : MerchantVerificationMsg) :
    VerificationResponse :=
  let merchant := pyLower (message.merchant.getD "")
  let context := message.context.getD ""
  match merchant_database.lookup merchant with
  | some merchant_info =>
    let confidence := merchant_info.confidence
    if context = "fraud_suspicious" then
      if confidence > 0.8 then
        { merchant_verified := true, confidence := confidence
          category := some merchant_info.category
          subcategory := some merchant_info.subcategory
          verification_status := "verified" }
      else
        { merchant_verified := false, confidence := confidence
          verification_status := "suspicious" }
    else
      { merchant_verified := true, confidence := confidence
        category := some merchant_info.category
        subcategory := some merchant_info.subcategory
        verification_status := "verified" }
  | none =>
    { merchant_verified := false, confidence := 0
      verification_status := "unknown_merchant" }

/-- The known-good merchant allow-list hard-coded in
`FraudAgent._run_async_impl` (fraud agent line 152). -/
def fraud_merchant_allowlist : List String := ["starbucks", "mcdonalds", "amazon", "shell"]

/-- Outcome of the fraud agent's merchant-verification step: the final
values of the `fraud_score` and `alerts` keys (`none` = key absent), the
`a2a_verification` tag, whether a request was sent, and the `error` key of
the replacement result dict when the step raised. -/
structure FraudVerificationOutcome where
  fraud_score : ℚ
  alerts : Option (List String)
  request_sent : Bool
  a2a_verification : Option A2AVerificationTag := none
  error : Option String := none
  deriving Repr, DecidableEq

/-- The merchant-verification step of `FraudAgent._run_async_impl`
(fraud agent lines 149-188) together with its exception path: `alerts` is
the parsed dict's `alerts` value (`none` = key missing; only `fraud_score`
is back-filled at lines 146-147) and `verification_result` the peer-bus
response (`none` models a `send_message` call that returned `None`).  In the
reduction branch the source appends via `result_dict["alerts"].append(...)`
(line 175); when the `alerts` key is missing this raises `KeyError`, caught
by the outer except-handler (lines 213-220), which replaces the whole result
with `{"error": str(e), "fraud_score": 0.0}`. -/
def fraud_merchant_verification (fraud_score : ℚ) (merchant_name : String)
    (alerts : Option (List String))
    (verification_result : Option VerificationResponse) :
    FraudVerificationOutcome :=
  if fraud_score > 0.5 ∧ pyLower merchant_name ∉ fraud_merchant_allowlist then
    match verification_result with
    | some v =>
      if v.merchant_verified then
        if v.confidence > 0.8 then
          match alerts with
          | some al =>
            { fraud_score := max 0 (fraud_score - 0.3)
              alerts := some (al ++ ["merchant_verified_by_categorization"])
              request_sent := true
              a2a_verification :=
                some (.verified v.confidence fraud_score (max 0 (fraud_score - 0.3))) }
          | none =>
            { fraud_score := 0, alerts := none, request_sent := true
              error := some "KeyError: alerts" }
        else
          { fraud_score := fraud_score, alerts := alerts, request_sent := true }
      else
        { fraud_score := fraud_score, alerts := alerts, request_sent := true
          a2a_verification := some (.notVerified v.confidence) }
    | none =>
      { fraud_score := fraud_score, alerts := alerts, request_sent := true
        a2a_verification := some (.notVerified 0) }
  else
    { fraud_score := fraud_score, alerts := alerts, request_sent := false }

/-- C6 counterexample: at fraud score 0.9 and unknown merchant with a
verified response of confidence 0.95 — but a parsed result dict lacking the
`alerts` key — `result_dict["alerts"].append` raises `KeyError` and the outer
handler replaces the result with an error dict carrying fraud score 0.0: the
score is not reduced by exactly 0.3 (0.9 − 0.3 = 0.6 ≠ 0) and no
merchant-verified tag is appended, refuting the claim's unconditional
"whenever the verification response reports the merchant verified with
confidence greater than 0.8". -/
theorem c6_merchant_verification_counterexample :
    fraud_merchant_verification 0.9 "Acme Copper" none
        (some { merchant_verified := true, confidence := 0.95
                verification_status := "verified" }) =
      { fraud_score := 0, alerts := none, request_sent := true
        error := some "KeyError: alerts" } ∧
    (0 : ℚ) ≠ 0.9 - 0.3 := by
  constructor
  · have hm : pyLower "Acme Copper" ∉ fraud_merchant_allowlist := by decide
    norm_num [fraud_merchant_verification, hm]
  · norm_num

/-- C6 (amended): whenever the fraud score exceeds 0.5 and the lowercased
merchant is not on the allow-list, a `merchant_verification` request is sent;
if the response reports the merchant verified with confidence above 0.8 then
— provided the parsed result dict carries an `alerts` list — the fraud score
is reduced by exactly 0.3 (which never takes it below 0, since the score
exceeded 0.5) and the `merchant_verified_by_categorization` tag is appended;
if instead the `alerts` key is missing, the append raises `KeyError` and the
outer handler replaces the result with an error dict whose fraud score is 0.
When the score is at most 0.5 or the merchant is allow-listed, no request is
sent and score and alerts are unchanged. -/
theorem c6_merchant_verification_amended (fraud_score : ℚ) (merchant_name : String)
    (alerts : Option (List String)) (v : Option VerificationResponse) :
    (fraud_score > 0.5 ∧ pyLower merchant_name ∉ fraud_merchant_allowlist →
      (fraud_merchant_verification fraud_score merchant_name alerts v).request_sent = true ∧
      (∀ vr al, v = some vr → vr.merchant_verified = true → vr.confidence > 0.8 →
        alerts = some al →
        (fraud_merchant_verification fraud_score merchant_name alerts v).fraud_score =
            fraud_score - 0.3 ∧
        fraud_score - 0.3 ≥ 0 ∧
        (fraud_merchant_verification fraud_score merchant_name alerts v).alerts =
          some (al ++ ["merchant_verified_by_categorization"])) ∧
      (∀ vr, v = some vr → vr.merchant_verified = true → vr.confidence > 0.8 →
        alerts = none →
        fraud_merchant_verification fraud_score merchant_name alerts v =
          { fraud_score := 0, alerts := none, request_sent := true
            error := some "KeyError: alerts" })) ∧
    (fraud_score ≤ 0.5 ∨ pyLower merchant_name ∈ fraud_merchant_allowlist →
      fraud_merchant_verification fraud_score merchant_name alerts v =
        { fraud_score := fraud_score, alerts := alerts, request_sent := false }) := by
  constructor
  · intro h
    refine ⟨?_, ?_, ?_⟩
    · rcases v with - | vr
      · simp [fraud_merchant_verification, h]
      · simp only [fraud_merchant_verification, if_pos h]
        by_cases hv : vr.merchant_verified = true <;>
          by_cases hc : vr.confidence > 0.8 <;>
            cases alerts <;> simp [hv, hc]
    · rintro vr al rfl hv hc rfl
      have hmax : max 0 (fraud_score - 0.3) = fraud_score - 0.3 := by
        rw [max_eq_right]
        linarith [h.1]
      simp [fraud_merchant_verification, h, hv, hc, hmax]
      linarith [h.1]
    · rintro vr rfl hv hc rfl
      simp [fraud_merchant_verification, h, hv, hc]
  · intro h
    have hneg : ¬ (fraud_score > 0.5 ∧ pyLower merchant_name ∉ fraud_merchant_allowlist) := by
      rcases h with h | h
      · rintro ⟨h1, -⟩
        linarith
      · rintro ⟨-, h2⟩
        exact h2 h
    simp [fraud_merchant_verification, hneg]

/-- Concrete instantiation of `c6_merchant_verification_amended`: score 0.9
at unknown merchant `Acme Copper` with a verified 0.95-confidence response
and an alerts list present is reduced to 0.6 and tagged; score 0.4 at
`Starbucks` sends nothing. -/
theorem c6_merchant_verification_amended_witness :
    (fraud_merchant_verification 0.9 "Acme Copper" (some ["velocity_alert"])
        (some { merchant_verified := true, confidence := 0.95
                verification_status := "verified" })).request_sent = true ∧
    (fraud_merchant_verification 0.9 "Acme Copper" (some ["velocity_alert"])
        (some { merchant_verified := true, confidence := 0.95
                verification_status := "verified" })).fraud_score = 0.9 - 0.3 ∧
    (fraud_merchant_verification 0.9 "Acme Copper" (some ["velocity_alert"])
        (some { merchant_verified := true, confidence := 0.95
                verification_status := "verified" })).alerts =
      some ["velocity_alert", "merchant_verified_by_categorization"] ∧
    fraud_merchant_verification 0.4 "Starbucks" (some []) none =
      { fraud_score := 0.4, alerts := some [], request_sent := false } := by
  have hcond : (0.9 : ℚ) > 0.5 ∧ pyLower "Acme Copper" ∉ fraud_merchant_allowlist := by
    constructor
    · norm_num
    · decide
  have h := c6_merchant_verification_amended 0.9 "Acme Copper" (some ["velocity_alert"])
    (some { merchant_verified := true, confidence := 0.95
            verification_status := "verified" })
  have h2 := (h.1 hcond).2.1 _ _ rfl rfl (by norm_num) rfl
  refine ⟨(h.1 hcond).1, h2.1, ?_, ?_⟩
  · rw [h2.2.2]
    rfl
  · exact (c6_merchant_verification_amended 0.4 "Starbucks" (some []) none).2
      (Or.inl (by norm_num))

/-! ### Synthesizer tools (`subagents/synthesizer_agent/tools.py`) -/

/-- The `risk_assessment` block of an insight's data. -/
structure RiskAssessment where
  overall_risk : String
  risk_factors : List String
  risk_score : ℚ
  deriving Repr, DecidableEq

/-- One entry of an insight's `recommendations` list. -/
structure Recommendation where
  priority : String
  category : String
  action : String
  reasoning : String
  timeline : String
  deriving Repr, DecidableEq

/-- The `key_metrics` block of an insight's data. -/
structure KeyMetrics where
  fraud_score : ℚ
  budget_status : String
  cashflow_runway : ℤ
  spending_trend : String
  deriving Repr, DecidableEq

/-- The structured `data` block of a final insight (the `metadata` sub-block,
holding only wall-clock timestamps and a run-id echo, is elided). -/
structure InsightData where
  risk_assessment : RiskAssessment
  recommendations : List Recommendation
  key_metrics : KeyMetrics
  alerts : List String
  insights : List String
  deriving Repr, DecidableEq

/-- A final insight record. -/
structure Insight where
  title : String
  body : String
  severity : String
  data : InsightData
  deriving Repr, DecidableEq

/-- The `data` block of a parsed LLM insight; every key may be missing. -/
structure LlmInsightData where
  risk_assessment : Option RiskAssessment := none
  recommendations : Option (List Recommendation) := none
  key_metrics : Option KeyMetrics := none
  alerts : Option (List String) := none
  insights : Option (List String) := none
  deriving Repr, DecidableEq

/-- A parsed LLM insight dictionary as passed to
`validate_and_enhance_insight`; every key may be missing. -/
structure LlmInsight where
  title : Option String := none
  body : Option String := none
  severity : Option String := none
  data : Option LlmInsightData := none
  deriving Repr, DecidableEq

/-- Two-decimal rendering of a risk score, standing in for Python's
`f"{risk_score:.2f}"` in the fallback-insight body (display formatting only;
never branched on). -/
def ratFmt2 (q : ℚ) : String :=
  let n := round (q * 100)
  toString (n / 100) ++ "." ++ (if n % 100 < 10 then "0" else "") ++ toString (n % 100)

/-- `validate_and_enhance_insight(insight_dict, merged_results)`
(synthesizer tools lines 87-135): required fields are back-filled with
deterministic defaults derived from the merged results. -/
def validate_and_enhance_insight (insight_dict : LlmInsight)
    (merged_results : MergedResults) : Insight :=
  let analysis := merged_results.transaction_analysis
  let data := insight_dict.data.getD {}
  { title := insight_dict.title.getD "Transaction Analysis Complete"
    body := insight_dict.body.getD "Analysis completed successfully."
    severity := insight_dict.severity.getD "info"
    data :=
      { risk_assessment := data.risk_assessment.getD
          { overall_risk := "medium", risk_factors := []
            risk_score := merged_results.summary.overall_risk_score }
        recommendations := data.recommendations.getD []
        key_metrics := data.key_metrics.getD
          { fraud_score := analysis.fraud_detection.fraud_score
            budget_status :=
              if analysis.budget_analysis.over_budget then "over" else "within"
            cashflow_runway := analysis.cashflow_forecast.runway_days
            spending_trend := analysis.budget_analysis.category_trend }
        alerts := data.alerts.getD []
        insights := data.insights.getD [] } }

/-- `create_fallback_insight(merged_results)` (synthesizer tools lines
138-189): the deterministic insight produced when the collaborator response
could not be parsed. -/
def create_fallback_insight (merged_results : MergedResults) : Insight :=
  let analysis := merged_results.transaction_analysis
  let summary := merged_results.summary
  let risk_score := summary.overall_risk_score
  let severity :=
    if risk_score > 0.7 then "critical"
    else if risk_score > 0.4 then "warning"
    else "info"
  { title := "Transaction Analysis Complete"
    body := "Analysis completed with overall risk score of " ++ ratFmt2 risk_score ++
      ". Primary concerns: " ++ String.intercalate ", " summary.primary_concerns
    severity := severity
    data :=
      { risk_assessment :=
          { overall_risk :=
              if risk_score > 0.7 then "high"
              else if risk_score > 0.4 then "medium"
              else "low"
            risk_factors := summary.primary_concerns
            risk_score := risk_score }
        recommendations :=
          [{ priority := "medium", category := "general"
             action := "Review transaction details and consider any alerts"
             reasoning := "Automated analysis completed", timeline := "short_term" }]
        key_metrics :=
          { fraud_score := analysis.fraud_detection.fraud_score
            budget_status :=
              if analysis.budget_analysis.over_budget then "over" else "within"
            cashflow_runway := analysis.cashflow_forecast.runway_days
            spending_trend := analysis.budget_analysis.category_trend }
        alerts := analysis.fraud_detection.alerts
        insights := summary.primary_concerns } }

/-- A nonempty string stays nonempty under right-append. -/
theorem string_append_left_ne_empty {a : String} (b : String) (h : a.length ≠ 0) :
    a ++ b ≠ "" := by
  intro he
  apply h
  have hl := congrArg String.length he
  rw [String.length_append] at hl
  simpa using Nat.eq_zero_of_add_eq_zero_right hl

/-- C9 counterexample: at aggregate risk score 0.5 the fallback insight's
severity string is `"warning"`, not the `"warn"` the claim (and the
repository's own severity vocabulary in `config.SEVERITY_LEVELS`) names. -/
theorem c9_fallback_severity_counterexample :
    (create_fallback_insight
      { transaction_analysis :=
          { categorization := normalize_categorization {}
            fraud_detection := normalize_fraud {}
            budget_analysis := normalize_budget {}
            cashflow_forecast := normalize_cashflow {} }
        summary :=
          { overall_risk_score := 0.5, primary_concerns := []
            recommendations_priority := [] } }).severity = "warning" ∧
    "warning" ≠ "warn" := by
  constructor
  · norm_num [create_fallback_insight]
  · decide

/-- C9 (amended): the fallback insight's severity is determined from the
aggregate risk score by fixed thresholds — above 0.7 `critical`, above 0.4
`warning` (the code's label; the claim said `warn`), otherwise `info` — and
the fallback insight is never empty: its title and body are nonempty strings
and its structured data block carries the risk assessment (echoing the
aggregate score), a nonempty recommendation list, key metrics, alerts and
insights. -/
theorem c9_fallback_severity_amended (m : MergedResults) :
    (m.summary.overall_risk_score > 0.7 →
      (create_fallback_insight m).severity = "critical") ∧
    (m.summary.overall_risk_score ≤ 0.7 → m.summary.overall_risk_score > 0.4 →
      (create_fallback_insight m).severity = "warning") ∧
    (m.summary.overall_risk_score ≤ 0.4 →
      (create_fallback_insight m).severity = "info") ∧
    (create_fallback_insight m).title ≠ "" ∧
    (create_fallback_insight m).body ≠ "" ∧
    (create_fallback_insight m).data.risk_assessment.risk_score =
      m.summary.overall_risk_score ∧
    (create_fallback_insight m).data.recommendations ≠ [] := by
  refine ⟨fun h => ?_, fun h1 h2 => ?_, fun h => ?_, by simp [create_fallback_insight], ?_,
    rfl, by simp [create_fallback_insight]⟩
  · simp [create_fallback_insight, h]
  · simp [create_fallback_insight, not_lt.mpr h1, h2]
  · have h7 : ¬ m.summary.overall_risk_score > 0.7 := by
      intro hc
      linarith
    simp [create_fallback_insight, h7, not_lt.mpr h]
  · show "Analysis completed with overall risk score of " ++ _ ++ _ ≠ ""
    rw [String.append_assoc]
    exact string_append_left_ne_empty _ (by decide)

/-- Concrete instantiation of `c9_fallback_severity_amended` at aggregate
risk 0.8 (critical band). -/
theorem c9_fallback_severity_amended_witness :
    (create_fallback_insight
      { transaction_analysis :=
          { categorization := normalize_categorization {}
            fraud_detection := normalize_fraud {}
            budget_analysis := normalize_budget {}
            cashflow_forecast := normalize_cashflow {} }
        summary :=
          { overall_risk_score := 0.8, primary_concerns := ["High fraud risk detected"]
            recommendations_priority := [] } }).severity = "critical" :=
  (c9_fallback_severity_amended _).1 (by norm_num)

/-! ### Persistence coordinator (`subagents/database_agent/tools.py`) -/

/-- Reference to one created alert row, as recorded in `alerts_created`. -/
structure AlertRef where
  type : String
  id : String
  severity : String
  deriving Repr, DecidableEq

/-- Outcome of `update_transaction_with_analysis` (a raised exception is
caught inside that function and returned as its error dict, so both surface
here as `error`). -/
inductive TxUpdateOutcome where
  | success (updated : Bool)
  | error (msg : String)
  deriving Repr, DecidableEq

/-- Outcome of `create_insight_record`; `alert_id` is `some` when a critical
alert was created alongside the insight. -/
inductive InsightOutcome where
  | success (insight_id : String) (alert_id : Option String)
  | error (msg : String)
  deriving Repr, DecidableEq

/-- Outcome of `create_alerts_from_analysis`. -/
inductive AlertsOutcome where
  | success (alerts_created : List AlertRef)
  | error (msg : String)
  deriving Repr, DecidableEq

/-- Outcome of `update_agent_run_completion`. -/
inductive RunUpdateOutcome where
  | success
  | error (msg : String)
  deriving Repr, DecidableEq

/-- A persistence write failed (its processing appends to `errors`). -/
def TxUpdateOutcome.failed : TxUpdateOutcome → Bool
  | .error _ => true
  | _ => false

def InsightOutcome.failed : InsightOutcome → Bool
  | .error _ => true
  | _ => false

def AlertsOutcome.failed : AlertsOutcome → Bool
  | .error _ => true
  | _ => false

def RunUpdateOutcome.failed : RunUpdateOutcome → Bool
  | .error _ => true
  | _ => false

/-- The persistence report assembled by `persist_analysis_results_async`. -/
structure PersistReport where
  status : String
  transaction_updated : Bool
  insight_created : Bool
  alerts_created : List AlertRef
  run_updated : Bool
  insight_id : Option String := none
  errors : List String
  deriving Repr, DecidableEq

/-- `persist_analysis_results_async(...)` (database tools lines 405-551) as a
function of the transaction-id lookup and the four write outcomes (the
database I/O itself belongs to the external datastore collaborator).  When
the transaction id is unknown, the transaction update and the alert creation
are replaced by `skipped` results exactly as in the source; the processing
order of the four results and the final status computation follow the source. -/
def persist_analysis_results (transaction_id : Option String)
    (tx_update : TxUpdateOutcome) (insight_result : InsightOutcome)
    (alerts_result : AlertsOutcome) (run_update : RunUpdateOutcome) : PersistReport :=
  let r0 : PersistReport :=
    { status := "success", transaction_updated := false, insight_created := false
      alerts_created := [], run_updated := false, errors := [] }
  let r1 : PersistReport :=
    match transaction_id, tx_update with
    | some _, .success updated => { r0 with transaction_updated := updated }
    | some _, .error e =>
      { r0 with errors := r0.errors ++ ["Transaction update failed: " ++ e] }
    | none, _ => r0
  let r2 : PersistReport :=
    match insight_result with
    | .success insight_id alert_id =>
      let r : PersistReport := { r1 with insight_created := true, insight_id := some insight_id }
      match alert_id with
      | some aid =>
        { r with alerts_created := r.alerts_created ++
            [{ type := "fraud", id := aid, severity := "critical" }] }
      | none => r
    | .error e => { r1 with errors := r1.errors ++ ["Insight creation failed: " ++ e] }
  let r3 : PersistReport :=
    match transaction_id, alerts_result with
    | some _, .success alerts_created => { r2 with alerts_created := alerts_created }
    | some _, .error e => { r2 with errors := r2.errors ++ ["Alert creation failed: " ++ e] }
    | none, _ => r2
  let r4 : PersistReport :=
    match run_update with
    | .success => { r3 with run_updated := true }
    | .error e => { r3 with errors := r3.errors ++ ["Run update failed: " ++ e] }
  if r4.errors ≠ [] then
    if r4.transaction_updated || r4.insight_created || r4.run_updated then
      { r4 with status := "partial_success" }
    else
      { r4 with status := "failed" }
  else r4

/-- C7 counterexample: when the transaction update, the insight creation and
the run update all fail but the alert creation succeeds (one alert written),
the report's status is `failed` even though one of the four writes succeeded;
the claim requires `partial_success` whenever at least one write succeeded.
The final status check in the source consults only `transaction_updated`,
`insight_created` and `run_updated`, ignoring alert-write success. -/
theorem c7_persistence_status_counterexample :
    persist_analysis_results (some "tx-1")
        (.error "transaction update connection reset")
        (.error "insight insert rejected")
        (.success [{ type := "fraud", id := "alert-1", severity := "medium" }])
        (.error "run update connection reset") =
      { status := "failed", transaction_updated := false, insight_created := false
        alerts_created := [{ type := "fraud", id := "alert-1", severity := "medium" }]
        run_updated := false
        errors := ["Transaction update failed: transaction update connection reset",
                   "Insight creation failed: insight insert rejected",
                   "Run update failed: run update connection reset"] } := by
  decide

/-- C7 (amended): the four writes are tracked independently; the overall
status is `success` exactly when no performed write failed, `partial_success`
when some write failed and at least one of the transaction update, the
insight creation or the run update succeeded, and `failed` when writes failed
and none of those three succeeded (alert-creation success alone does not
count).  In particular, if the insight write succeeds and the alert write
fails, the report has status `partial_success`, `insight_created` true, and
the alert's error message recorded in the errors list. -/
theorem c7_persistence_status_amended (txid : Option String)
    (tx : TxUpdateOutcome) (ins : InsightOutcome) (al : AlertsOutcome)
    (run : RunUpdateOutcome) :
    ((persist_analysis_results txid tx ins al run).status = "success" ↔
      ((txid.isSome && tx.failed) || ins.failed || (txid.isSome && al.failed) ||
        run.failed) = false) ∧
    ((persist_analysis_results txid tx ins al run).status = "partial_success" ↔
      ((txid.isSome && tx.failed) || ins.failed || (txid.isSome && al.failed) ||
        run.failed) = true ∧
      ((persist_analysis_results txid tx ins al run).transaction_updated ||
        (persist_analysis_results txid tx ins al run).insight_created ||
        (persist_analysis_results txid tx ins al run).run_updated) = true) ∧
    ((persist_analysis_results txid tx ins al run).status = "failed" ↔
      ((txid.isSome && tx.failed) || ins.failed || (txid.isSome && al.failed) ||
        run.failed) = true ∧
      ((persist_analysis_results txid tx ins al run).transaction_updated ||
        (persist_analysis_results txid tx ins al run).insight_created ||
        (persist_analysis_results txid tx ins al run).run_updated) = false) ∧
    (∀ iid aid e, ins = .success iid aid → al = .error e → txid.isSome = true →
      (persist_analysis_results txid tx ins al run).status = "partial_success" ∧
      (persist_analysis_results txid tx ins al run).insight_created = true ∧
      ("Alert creation failed: " ++ e) ∈ (persist_analysis_results txid tx ins al run).errors) := by
  cases txid <;> rcases tx with ⟨u⟩ | te <;> (try cases u) <;>
    rcases ins with ⟨iid, aid | aid⟩ | ie <;> cases al <;> cases run <;>
      simp [persist_analysis_results, TxUpdateOutcome.failed, InsightOutcome.failed,
        AlertsOutcome.failed, RunUpdateOutcome.failed]

/-- Concrete instantiation of `c7_persistence_status_amended`: insight write
succeeds, alert write fails, report is `partial_success` with the alert error
captured. -/
theorem c7_persistence_status_amended_witness :
    (persist_analysis_results (some "tx-9") (.success true) (.success "ins-1" none)
        (.error "alert insert boom") .success).status = "partial_success" ∧
    (persist_analysis_results (some "tx-9") (.success true) (.success "ins-1" none)
        (.error "alert insert boom") .success).insight_created = true ∧
    ("Alert creation failed: " ++ "alert insert boom") ∈
      (persist_analysis_results (some "tx-9") (.success true) (.success "ins-1" none)
        (.error "alert insert boom") .success).errors :=
  (c7_persistence_status_amended (some "tx-9") (.success true) (.success "ins-1" none)
    (.error "alert insert boom") .success).2.2.2 "ins-1" none "alert insert boom" rfl rfl rfl

/-! ### Pipeline model (`transaction_agent/agent.py` and the agent classes)

The root `SequentialAgent` composes init → parallel analysis (categorization,
fraud, budget, cashflow) → reducer → synthesizer → database.  Each stage is
embedded as a function on the pipeline state; the LLM and datastore
collaborators are oracle parameters.  LLM prompt texts, log messages and the
`user_rules` list (stored by init but never read by any later stage) are
elided. -/

/-- Relevant fields of the incoming transaction dictionary. -/
structure Transaction where
  plaid_transaction_id : Option String := none
  is_test_transaction : Bool := false
  amount : ℚ := 0
  merchant_name : Option String := none
  deriving Repr, DecidableEq

/-- One baseline transaction loaded by the init agent (only the fields read
by the embedded stages). -/
structure BaselineTx where
  amount : ℚ := 0
  category : Option String := none
  deriving Repr, DecidableEq

/-- One user account (only the balance is read). -/
structure Account where
  balance : ℚ := 0
  deriving Repr, DecidableEq

/-- The `baseline_stats` block packaged by the init agent. -/
structure BaselineStats where
  total_amount_30d : ℚ
  avg_daily_spend : ℚ
  transaction_count : ℕ
  deriving Repr, DecidableEq

/-- The `merged_results` state value: either the reducer's error dictionary
or the merged record. -/
inductive MergedState where
  | error (msg : String)
  | ok (merged : MergedResults)
  deriving Repr, DecidableEq

/-- The `final_insight` state value: either the synthesizer's error
dictionary or a validated/fallback insight. -/
inductive InsightState where
  | error (msg : String)
  | ok (insight : Insight)
  deriving Repr, DecidableEq

/-- The `database_result` state value.  `skipped_duplicate` is the dict
`{status: "skipped", message: "Transaction already processed"}`;
`skipped_no_run` is the skipped dict written when `run_id` is missing;
`error` covers the missing-user-id / missing-plaid-id dicts. -/
inductive DatabaseOutcome where
  | skipped_duplicate
  | skipped_no_run
  | error (msg : String)
  | report (r : PersistReport)
  deriving Repr, DecidableEq

/-- The session-state keys touched by the pipeline.  `none` models an absent
key.  `run_id` is doubly optional: the init agent sets the key to Python
`None` when the run-record insert fails. -/
structure SessionState where
  incoming_transaction : Option Transaction := none
  user_id : Option String := none
  session_id : Option String := none
  skip_analysis : Option Bool := none
  run_id : Option (Option String) := none
  baseline_transactions : Option (List BaselineTx) := none
  user_accounts : Option (List Account) := none
  baseline_stats : Option BaselineStats := none
  init_complete : Option Bool := none
  categorization_result : Option CatResult := none
  fraud_result : Option FraudResult := none
  budget_result : Option BudgetResult := none
  cashflow_result : Option CashflowResult := none
  merged_results : Option MergedState := none
  final_insight : Option InsightState := none
  database_result : Option DatabaseOutcome := none
  database_complete : Option Bool := none
  pipeline_complete : Option Bool := none
  deriving Repr, DecidableEq

/-- One successful datastore mutation performed by the pipeline (reads and
failed write attempts are not logged). -/
inductive DbWrite where
  | insert_agent_run (user_id batch_id : String)
  | update_transaction (transaction_id : String)
  | insert_insight (user_id run_id : String)
  | insert_alert (tx_id alert_type : String)
  | update_agent_run (run_id : String)
  deriving Repr, DecidableEq

/-- Pipeline state: the session state plus the log of successful datastore
mutations. -/
structure PipeState where
  session : SessionState
  writes : List DbWrite := []
  deriving Repr, DecidableEq

/-- Result of `check_transaction_exists` (`tools/database.py` lines 16-44);
the `exists` key is `exists_flag` here (`exists` is a Lean keyword). -/
structure ExistsResult where
  status : String
  exists_flag : Bool
  deriving Repr, DecidableEq

/-- Result of `create_agent_run` (`tools/database.py` lines 46-77). -/
inductive CreateRunResult where
  | success (run_id : String)
  | error (msg : String)
  deriving Repr, DecidableEq

/-- Result of one context fetch (`fetch_user_*`): a status and a data list
(the helpers catch their own exceptions and return an error status). -/
structure FetchResult (α : Type) where
  status : String
  data : List α := []
  deriving Repr, DecidableEq

/-- Outcome of one LLM call followed by `parse_json_response`: a parsed
dictionary, unparseable text, or an exception raised during the call (caught
by the agent's outer handler). -/
inductive LlmOutcome (α : Type) where
  | parsed (d : α)
  | unparsed
  | raise (msg : String)
  deriving Repr, DecidableEq

/-- Datastore responses consumed by the init agent. -/
structure InitOracle where
  exists_result : ExistsResult
  create_result : CreateRunResult
  rules_status : String
  recent_result : FetchResult BaselineTx
  accounts_result : FetchResult Account
  deriving Repr, DecidableEq

/-- `InitAgent._run_async_impl` (init agent lines 46-146).  On missing
transaction or user id it yields no state delta; on a dedup hit it sets only
`skip_analysis` and returns (no run record is created); otherwise it creates
the run record and packages the context.  Its datastore helpers catch their
own exceptions, so the agent's except-branch is unreachable here. -/
def init_stage (o : InitOracle) (p : PipeState) : PipeState :=
  let s := p.session
  if s.incoming_transaction.isNone || !strTruthy s.user_id then p
  else
    let tx := s.incoming_transaction.getD {}
    if strTruthy tx.plaid_transaction_id ∧ tx.is_test_transaction = false ∧
        o.exists_result.status = "success" ∧ o.exists_result.exists_flag = true then
      { p with session := { s with skip_analysis := some true } }
    else
      let batch_id :=
        if strTruthy tx.plaid_transaction_id then tx.plaid_transaction_id.getD ""
        else "manual_" ++ s.session_id.getD "None"
      let run_id : Option String :=
        match o.create_result with
        | .success rid => some rid
        | .error _ => none
      let run_writes : List DbWrite :=
        match o.create_result with
        | .success _ => [.insert_agent_run (s.user_id.getD "") batch_id]
        | .error _ => []
      let baseline_transactions :=
        if o.recent_result.status = "success" then o.recent_result.data else []
      let user_accounts :=
        if o.accounts_result.status = "success" then o.accounts_result.data else []
      let total_baseline_amount := (baseline_transactions.map (·.amount)).sum
      let avg_daily_spend :=
        if baseline_transactions ≠ [] then total_baseline_amount / 30 else 0
      { writes := p.writes ++ run_writes
        session := { s with
          run_id := some run_id
          baseline_transactions := some baseline_transactions
          user_accounts := some user_accounts
          init_complete := some true
          skip_analysis := some false
          baseline_stats := some
            { total_amount_30d := total_baseline_amount
              avg_daily_spend := avg_daily_spend
              transaction_count := baseline_transactions.length } } }

/-- The `category_map` used to infer a missing category from the subcategory
(categorization agent lines 98-106). -/
def category_map : List (String × String) :=
  [("coffee_tea", "food"), ("dining", "food"), ("groceries", "food"), ("bars", "food"),
   ("gas", "transportation"), ("public_transit", "transportation"),
   ("parking", "transportation"),
   ("rent", "living"), ("mortgage", "living"), ("electricity", "living"),
   ("water", "living"),
   ("clothing", "shopping"), ("electronics", "shopping"), ("online", "shopping"),
   ("movies", "entertainment"), ("streaming", "entertainment"), ("games", "entertainment"),
   ("flights", "travel"), ("hotels", "travel"),
   ("doctor", "healthcare"), ("prescriptions", "healthcare")]

/-- The categorization dictionary written to state by
`CategorizationAgent._run_async_impl` (categorization agent lines 42-157). -/
def categorization_result_of (llm : LlmOutcome CatResult) (s : SessionState) : CatResult :=
  match s.incoming_transaction with
  | none => { error := some "No transaction data" }
  | some _ =>
    match llm with
    | .raise e =>
      { category := some "unknown", subcategory := some "unknown"
        confidence := some 0
        reason := some ("Error during categorization: " ++ e)
        error := some e }
    | .unparsed =>
      -- carries a `raw_response` key in the source (`hasOtherKeys`)
      { category := some "unknown", subcategory := some "unknown"
        confidence := some 0
        reason := some "Failed to parse LLM response - using default"
        error := some "Failed to parse JSON", hasOtherKeys := true }
    | .parsed d =>
      { d with
        category := some (match d.category with
          | some c => c
          | none => (category_map.lookup (pyLower (d.subcategory.getD ""))).getD "unknown")
        subcategory := some (d.subcategory.getD "unknown")
        confidence := some (d.confidence.getD 0.5)
        reason := some (d.reason.getD "Automatic categorization based on merchant name") }

def categorization_stage (llm : LlmOutcome CatResult) (p : PipeState) : PipeState :=
  { p with session := { p.session with
      categorization_result := some (categorization_result_of llm p.session) } }

/-- The fraud dictionary written to state by `FraudAgent._run_async_impl`
(fraud agent lines 46-220).  In the composed pipeline the categorization
agent is registered with the peer bus and its `handle_merchant_verification`
never raises, so the bus response is that handler's result.  When the
verified-with-high-confidence branch runs on a parsed dict without an
`alerts` key, `result_dict["alerts"].append` raises a `KeyError` that the
outer except-handler converts into an error dict. -/
def fraud_result_of (llm : LlmOutcome FraudResult) (s : SessionState) : FraudResult :=
  match s.incoming_transaction with
  | none => { error := some "No transaction data" }
  | some tx =>
    match llm with
    | .raise e => { error := some e, fraud_score := some 0 }
    | .unparsed =>
      { fraud_score := some 0, alerts := some []
        error := some "Failed to parse JSON", hasOtherKeys := true }
    | .parsed d0 =>
      let merchant_name := tx.merchant_name.getD "Unknown"
      let d : FraudResult := { d0 with fraud_score := some (d0.fraud_score.getD 0) }
      let fraud_score := d0.fraud_score.getD 0
      if fraud_score > 0.5 ∧ pyLower merchant_name ∉ fraud_merchant_allowlist then
        let verification_result := handle_merchant_verification
          { merchant := some merchant_name, amount := tx.amount
            context := some "fraud_suspicious" }
        if verification_result.merchant_verified = true then
          if verification_result.confidence > 0.8 then
            match d.alerts with
            | some alerts =>
              { d with
                fraud_score := some (max 0 (fraud_score - 0.3))
                alerts := some (alerts ++ ["merchant_verified_by_categorization"])
                a2a_verification := some (.verified verification_result.confidence
                  fraud_score (max 0 (fraud_score - 0.3))) }
            | none => { error := some "KeyError: alerts", fraud_score := some 0 }
          else d
        else
          { d with a2a_verification := some (.notVerified verification_result.confidence) }
      else d

def fraud_stage (llm : LlmOutcome FraudResult) (p : PipeState) : PipeState :=
  { p with session := { p.session with
      fraud_result := some (fraud_result_of llm p.session) } }

/-- The budget dictionary written to state by `BudgetAgent._run_async_impl`
(budget agent lines 45-179).  The A2A scenario request (lines 116-147) is a
no-op on the result: the message carries `proposed_reduction` but the
cashflow handler reads `reduction_amount` (default 0), so its runway
computation divides by the zero daily saving and raises ZeroDivisionError;
`send_message` converts that to a `None` response and the
`if scenario_result:` block never runs. -/
def budget_result_of (llm : LlmOutcome BudgetResult) (s : SessionState) : BudgetResult :=
  match s.incoming_transaction with
  | none => { error := some "No transaction data" }
  | some _ =>
    match llm with
    | .raise e => { error := some e, over_budget := some false }
    | .unparsed =>
      { over_budget := some false, tips := some []
        error := some "Failed to parse JSON", hasOtherKeys := true }
    | .parsed d =>
      { d with
        over_budget := some (d.over_budget.getD false)
        tips := some (d.tips.getD []) }

def budget_stage (llm : LlmOutcome BudgetResult) (p : PipeState) : PipeState :=
  { p with session := { p.session with
      budget_result := some (budget_result_of llm p.session) } }

/-- The cashflow dictionary written to state by
`CashflowAgent._run_async_impl` (cashflow agent lines 47-162). -/
def cashflow_result_of (llm : LlmOutcome CashflowResult) (s : SessionState) :
    CashflowResult :=
  match s.incoming_transaction with
  | none => { error := some "No transaction data" }
  | some _ =>
    let current_balance := ((s.user_accounts.getD []).map (·.balance)).sum
    let avg_daily_spend := (s.baseline_stats.map (·.avg_daily_spend)).getD 0
    let runway_result := calculate_runway_days current_balance avg_daily_spend
    let runway_days := runway_result.runway_days
    match llm with
    | .raise e => { error := some e, runway_days := some 0 }
    | .unparsed =>
      { runway_days := some (runway_days : ℚ)
        low_balance_alert := some (decide (runway_days < 30))
        error := some "Failed to parse JSON", hasOtherKeys := true }
    | .parsed d =>
      { d with
        runway_days := some (d.runway_days.getD (runway_days : ℚ))
        low_balance_alert := some (d.low_balance_alert.getD (decide (runway_days < 30))) }

def cashflow_stage (llm : LlmOutcome CashflowResult) (p : PipeState) : PipeState :=
  { p with session := { p.session with
      cashflow_result := some (cashflow_result_of llm p.session) } }

/-- The merged-results value written by `ReducerAgent._run_async_impl`
(reducer agent lines 42-97). -/
def merged_state_of (s : SessionState) : MergedState :=
  let categorization_result := s.categorization_result.getD {}
  let fraud_result := s.fraud_result.getD {}
  let budget_result := s.budget_result.getD {}
  let cashflow_result := s.cashflow_result.getD {}
  let results_count :=
    (if categorization_result.truthy && !strTruthy categorization_result.error then 1 else 0) +
    (if fraud_result.truthy && !strTruthy fraud_result.error then 1 else 0) +
    (if budget_result.truthy && !strTruthy budget_result.error then 1 else 0) +
    (if cashflow_result.truthy && !strTruthy cashflow_result.error then (1 : ℕ) else 0)
  if results_count = 0 then .error "No analysis results available"
  else .ok (merge_results categorization_result fraud_result budget_result cashflow_result)

def reducer_stage (p : PipeState) : PipeState :=
  { p with session := { p.session with
      merged_results := some (merged_state_of p.session) } }

/-- The final-insight value written by `SynthesizerAgent._run_async_impl`
(synthesizer agent lines 47-127): a missing or errored merged result yields
the error dict; a parsed collaborator response is validated and back-filled;
an unparseable one yields the deterministic fallback insight. -/
def insight_state_of (llm : LlmOutcome LlmInsight) (s : SessionState) : InsightState :=
  match s.merged_results with
  | none => .error "No merged results available"
  | some (.error _) => .error "No merged results available"
  | some (.ok merged) =>
    match llm with
    | .raise e => .error e
    | .parsed insight_dict => .ok (validate_and_enhance_insight insight_dict merged)
    | .unparsed => .ok (create_fallback_insight merged)

def synthesizer_stage (llm : LlmOutcome LlmInsight) (p : PipeState) : PipeState :=
  { p with session := { p.session with
      final_insight := some (insight_state_of llm p.session) } }

/-- Datastore responses consumed by the database agent's persistence pass. -/
structure DbOracle where
  transaction_id : Option String
  tx_update : TxUpdateOutcome
  insight_result : InsightOutcome
  alerts_result : AlertsOutcome
  run_update : RunUpdateOutcome
  deriving Repr, DecidableEq

/-- The successful datastore mutations of one persistence pass, derived from
the oracle outcomes: transaction update and alert inserts happen only when
the transaction id resolved; the critical alert rides on the insight
outcome. -/
def persistence_writes (user_id run_id : String) (o : DbOracle) : List DbWrite :=
  (match o.transaction_id, o.tx_update with
   | some tid, .success true => [.update_transaction tid]
   | _, _ => []) ++
  (match o.insight_result with
   | .success _ aid =>
     [.insert_insight user_id run_id] ++
     (match o.transaction_id, aid with
      | some tid, some _ => [.insert_alert tid "fraud"]
      | _, _ => [])
   | .error _ => []) ++
  (match o.transaction_id, o.alerts_result with
   | some tid, .success alerts => alerts.map (fun a => .insert_alert tid a.type)
   | _, _ => []) ++
  (match o.run_update with
   | .success => [.update_agent_run run_id]
   | .error _ => [])

/-- `DatabaseAgent._run_async_impl` (database agent lines 39-190): the
dedup-skip check, the user-id / run-id / plaid-id validations, then the
persistence pass. -/
def database_stage (o : DbOracle) (p : PipeState) : PipeState :=
  let s := p.session
  if s.skip_analysis.getD false then
    { p with session := { s with database_result := some (.skipped_duplicate) } }
  else if !strTruthy s.user_id then
    { p with session := { s with database_result := some (.error "Missing user_id") } }
  else if !strTruthy (s.run_id.getD none) then
    { p with session := { s with
        database_result := some (.skipped_no_run)
        database_complete := some true
        pipeline_complete := some true } }
  else if !strTruthy (s.incoming_transaction.getD {}).plaid_transaction_id then
    { p with session := { s with
        database_result := some (.error "Missing plaid_transaction_id") } }
  else
    let report := persist_analysis_results o.transaction_id o.tx_update
      o.insight_result o.alerts_result o.run_update
    { writes := p.writes ++
        persistence_writes (s.user_id.getD "") ((s.run_id.getD none).getD "") o
      session := { s with
        database_result := some (.report report)
        database_complete := some true
        pipeline_complete := some true } }

/-- All external-collaborator outcomes one pipeline run depends on. -/
structure PipelineOracle where
  init : InitOracle
  cat_llm : LlmOutcome CatResult
  fraud_llm : LlmOutcome FraudResult
  budget_llm : LlmOutcome BudgetResult
  cashflow_llm : LlmOutcome CashflowResult
  synth_llm : LlmOutcome LlmInsight
  db : DbOracle
  deriving Repr, DecidableEq

/-- The root `SequentialAgent` (`transaction_agent/agent.py` lines 29-38):
Init, the parallel analysis group, Reduce, Synthesize, Persist.
google.adk's `SequentialAgent` runs every sub-agent in order; a sub-agent
that merely returns from its generator (as the init agent does on a dedup
hit) does not halt the sequence — only an `escalate` action would, and no
agent sets one.  The four parallel agents write disjoint state keys; they
are composed here in their list order, one admissible schedule of the
parallel group. -/
def run_pipeline (o : PipelineOracle) (p : PipeState) : PipeState :=
  database_stage o.db
    (synthesizer_stage o.synth_llm
      (reducer_stage
        (cashflow_stage o.cashflow_llm
          (budget_stage o.budget_llm
            (fraud_stage o.fraud_llm
              (categorization_stage o.cat_llm
                (init_stage o.init p)))))))

/-- On a dedup hit (truthy plaid id, not a test transaction, existence check
reporting success and exists) the init stage sets only `skip_analysis` and
issues no datastore write: it returns before `create_agent_run`. -/
theorem init_stage_dedup_hit (o : InitOracle) (p : PipeState) (tx : Transaction)
    (htx : p.session.incoming_transaction = some tx)
    (hpid : strTruthy tx.plaid_transaction_id = true)
    (htest : tx.is_test_transaction = false)
    (huid : strTruthy p.session.user_id = true)
    (hex : o.exists_result = { status := "success", exists_flag := true }) :
    init_stage o p = { p with session := { p.session with skip_analysis := some true } } := by
  simp [init_stage, htx, huid, hpid, htest, hex]

/-- C2 (behaviour of the code at a dedup hit): when the dedup-key existence
check reports the event already processed, the pipeline performs no datastore
write (in particular no new run record, insight or alert — `writes` is
unchanged and `run_id` is never set), and the persistence stage reports the
terminal `skipped` outcome, which is not an error.  However — against the
claim — every analysis module still runs and produces a result: the
categorization, fraud, budget and cashflow result keys are all written, and
the reducer and synthesizer also run. -/
theorem c2_dedup_hit_behaviour (o : PipelineOracle) (p : PipeState) (tx : Transaction)
    (htx : p.session.incoming_transaction = some tx)
    (hpid : strTruthy tx.plaid_transaction_id = true)
    (htest : tx.is_test_transaction = false)
    (huid : strTruthy p.session.user_id = true)
    (hex : o.init.exists_result = { status := "success", exists_flag := true }) :
    (run_pipeline o p).writes = p.writes ∧
    (run_pipeline o p).session.database_result = some (.skipped_duplicate) ∧
    (run_pipeline o p).session.run_id = p.session.run_id ∧
    (run_pipeline o p).session.categorization_result.isSome = true ∧
    (run_pipeline o p).session.fraud_result.isSome = true ∧
    (run_pipeline o p).session.budget_result.isSome = true ∧
    (run_pipeline o p).session.cashflow_result.isSome = true ∧
    (run_pipeline o p).session.merged_results.isSome = true ∧
    (run_pipeline o p).session.final_insight.isSome = true := by
  have hinit := init_stage_dedup_hit o.init p tx htx hpid htest huid hex
  unfold run_pipeline
  rw [hinit]
  simp [categorization_stage, fraud_stage, budget_stage, cashflow_stage,
    reducer_stage, synthesizer_stage, database_stage]

/-- Concrete dedup-hit scenario for `c2_dedup_hit_behaviour`. -/
def dedupState : PipeState :=
  { session :=
      { incoming_transaction := some
          { plaid_transaction_id := some "plaid-tx-1", is_test_transaction := false
            amount := 12, merchant_name := some "Starbucks" }
        user_id := some "user-1"
        session_id := some "sess-1" }
    writes := [] }

/-- Oracle for the concrete dedup-hit scenario: the existence check reports
the transaction already processed. -/
def dedupOracle : PipelineOracle :=
  { init :=
      { exists_result := { status := "success", exists_flag := true }
        create_result := .error "not reached"
        rules_status := "success"
        recent_result := { status := "success", data := [] }
        accounts_result := { status := "success", data := [] } }
    cat_llm := .unparsed
    fraud_llm := .unparsed
    budget_llm := .unparsed
    cashflow_llm := .unparsed
    synth_llm := .unparsed
    db :=
      { transaction_id := none, tx_update := .success false
        insight_result := .error "not reached", alerts_result := .error "not reached"
        run_update := .error "not reached" } }

/-- Concrete instantiation of `c2_dedup_hit_behaviour`: resubmitting the
already-processed `plaid-tx-1` writes nothing, reports `skipped`, and still
produces all four analysis-module results. -/
theorem c2_dedup_hit_behaviour_witness :
    (run_pipeline dedupOracle dedupState).writes = [] ∧
    (run_pipeline dedupOracle dedupState).session.database_result =
      some (.skipped_duplicate) ∧
    (run_pipeline dedupOracle dedupState).session.run_id = none ∧
    (run_pipeline dedupOracle dedupState).session.fraud_result.isSome = true := by
  have h := c2_dedup_hit_behaviour dedupOracle dedupState
    { plaid_transaction_id := some "plaid-tx-1", is_test_transaction := false
      amount := 12, merchant_name := some "Starbucks" }
    rfl (by decide) rfl (by decide) rfl
  exact ⟨h.1, h.2.1, h.2.2.1, h.2.2.2.2.1⟩

/-- C10: `calculate_runway_days` is total and never divides by a non-positive
number: when `avg_daily_spend ≤ 0` it returns status `no_spending` with
`runway_days = 999` and severity `info` (the division branch is not taken);
when `avg_daily_spend > 0` it returns the integer truncation of
`current_balance / avg_daily_spend`, with severity `critical` below 7 days,
`warn` below 30 days and `info` otherwise. -/
theorem c10_runway_total (current_balance avg_daily_spend : ℚ) :
    (avg_daily_spend ≤ 0 →
      calculate_runway_days current_balance avg_daily_spend =
        { status := "no_spending", runway_days := 999, severity := "info" }) ∧
    (0 < avg_daily_spend →
      calculate_runway_days current_balance avg_daily_spend =
        { status := "success"
          runway_days := pyInt (current_balance / avg_daily_spend)
          severity :=
            if pyInt (current_balance / avg_daily_spend) < 7 then "critical"
            else if pyInt (current_balance / avg_daily_spend) < 30 then "warn"
            else "info"
          daily_burn_rate := some avg_daily_spend }) := by
  constructor
  · intro h
    simp [calculate_runway_days, h]
  · intro h
    simp [calculate_runway_days, not_le.mpr h]

/-- Concrete instantiation of `c10_runway_total`: zero average daily spend
yields the `no_spending` record, and balance 100 at daily spend 8 yields a
truncated runway of 12 days with severity `warn`. -/
theorem c10_runway_total_witness :
    calculate_runway_days 100 0 =
      { status := "no_spending", runway_days := 999, severity := "info" } ∧
    calculate_runway_days 100 8 =
      { status := "success", runway_days := 12, severity := "warn",
        daily_burn_rate := some 8 } := by
  constructor
  · exact (c10_runway_total 100 0).1 (by norm_num)
  · rw [(c10_runway_total 100 8).2 (by norm_num)]
    have h : pyInt ((100 : ℚ) / 8) = 12 := by norm_num [pyInt]
    simp [h]

end Onyx
